import Mathlib

/-!
Verification of the payload-validation core of the events/users CRUD service
(`src/controllers/users.js`, `src/controllers/events.js`, and the schema-driven
validator variant in `src/unnamed/part_005`).

The JavaScript code is shallowly embedded: JS values become the inductive
`JSValue`, JS numbers become `JSNum` (NaN and the two infinities are explicit
constructors; finite values are exact rationals, which is adequate because the
embedded code never performs arithmetic on numbers, only comparisons and
coercions), and functions that can `throw` return `Except JSErr _`.
-/

namespace PA05

/-- Model of a JavaScript number.  Finite values are represented exactly as
rationals; the embedded source only compares numbers and never computes with
them, so no rounding behaviour needs to be modelled. -/
inductive JSNum where
  | nan
  | posInf
  | negInf
  | fin (q : ℚ)
  deriving DecidableEq, Repr

/-- The JS `<` relation on numbers: any comparison involving NaN is false. -/
def JSNum.lt : JSNum → JSNum → Bool
  | .nan, _ => false
  | _, .nan => false
  | .posInf, _ => false
  | .negInf, .negInf => false
  | .negInf, _ => true
  | _, .posInf => true
  | .fin _, .negInf => false
  | .fin a, .fin b => decide (a < b)

/-- Mathematical `≤` on JS numbers, used to state ordering facts; false as soon
as NaN is involved. -/
def JSNum.le : JSNum → JSNum → Bool
  | .nan, _ => false
  | _, .nan => false
  | .negInf, _ => true
  | _, .posInf => true
  | .posInf, _ => false
  | .fin _, .negInf => false
  | .fin a, .fin b => decide (a ≤ b)

/-- Model of a JavaScript value as produced by JSON parsing (plus `undefined`).
Objects are association lists in insertion order. -/
inductive JSValue where
  | undefined
  | null
  | bool (b : Bool)
  | num (n : JSNum)
  | str (s : String)
  | arr (elems : List JSValue)
  | obj (props : List (String × JSValue))
  deriving Repr

/-- JS truthiness. -/
def JSValue.truthy : JSValue → Bool
  | .undefined => false
  | .null => false
  | .bool b => b
  | .num .nan => false
  | .num (.fin q) => decide (q ≠ 0)
  | .num _ => true
  | .str s => !s.isEmpty
  | .arr _ => true
  | .obj _ => true

/-- The JS `typeof` operator (restricted to the data values of the model). -/
def JSValue.typeOf : JSValue → String
  | .undefined => "undefined"
  | .null => "object"
  | .bool _ => "boolean"
  | .num _ => "number"
  | .str _ => "string"
  | .arr _ => "object"
  | .obj _ => "object"

def isArray : JSValue → Bool
  | .arr _ => true
  | _ => false

def arrayLength : JSValue → Nat
  | .arr elems => elems.length
  | _ => 0

/-- Whitespace characters recognised by the embedding (the subset of JS
whitespace that occurs in the data handled here). -/
def isWsChar (c : Char) : Bool :=
  c = ' ' || c = '\t' || c = '\n' || c = '\r'

def trimWs (cs : List Char) : List Char :=
  ((cs.dropWhile isWsChar).reverse.dropWhile isWsChar).reverse

/-- Model of `String.prototype.trim`. -/
def trimWsStr (s : String) : String :=
  String.mk (trimWs s.toList)

def natOfDigits (cs : List Char) : ℕ :=
  cs.foldl (fun a c => a * 10 + (c.toNat - 48)) 0

def isHexDigitChar (c : Char) : Bool :=
  c.isDigit || (97 ≤ c.toNat && c.toNat ≤ 102) || (65 ≤ c.toNat && c.toNat ≤ 70)

def hexVal (c : Char) : ℕ :=
  if c.isDigit then c.toNat - 48
  else if 97 ≤ c.toNat then c.toNat - 87
  else c.toNat - 55

def natOfHexDigits (cs : List Char) : ℕ :=
  cs.foldl (fun a c => a * 16 + hexVal c) 0

/-- Split a character list at the first character satisfying `p`; the second
component is `none` when no such character occurs. -/
def splitAtChar (p : Char → Bool) : List Char → List Char × Option (List Char)
  | [] => ([], none)
  | c :: rest =>
    if p c then ([], some rest)
    else
      let r := splitAtChar p rest
      (c :: r.1, r.2)

/-- Decimal mantissa of a JS string numeric literal: digits, optionally with a
single decimal point, at least one digit overall. -/
def parseMantissa (cs : List Char) : Option ℚ :=
  let sp := splitAtChar (fun c => c = '.') cs
  match sp.2 with
  | none =>
    if cs ≠ [] && cs.all Char.isDigit then some (natOfDigits cs) else none
  | some fp =>
    if (sp.1 ++ fp) ≠ [] && sp.1.all Char.isDigit && fp.all Char.isDigit then
      some ((natOfDigits sp.1 : ℚ) + (natOfDigits fp : ℚ) / (10 : ℚ) ^ fp.length)
    else none

/-- Exponent part of a JS string numeric literal (after the `e`). -/
def parseExpPart : List Char → Option ℤ
  | [] => none
  | '+' :: ds => if ds ≠ [] && ds.all Char.isDigit then some (natOfDigits ds) else none
  | '-' :: ds => if ds ≠ [] && ds.all Char.isDigit then some (-(natOfDigits ds : ℤ)) else none
  | ds => if ds ≠ [] && ds.all Char.isDigit then some (natOfDigits ds) else none

/-- Decimal literal with optional exponent. -/
def parseDecLit (cs : List Char) : Option ℚ :=
  let sp := splitAtChar (fun c => c = 'e' || c = 'E') cs
  match sp.2 with
  | none => parseMantissa cs
  | some ecs =>
    match parseMantissa sp.1, parseExpPart ecs with
    | some q, some k => some (q * (10 : ℚ) ^ k)
    | _, _ => none

/-- Unsigned tail of a string numeric literal: `Infinity` or a decimal literal. -/
def parseSignedTail (cs : List Char) (sign : ℚ) : JSNum :=
  if cs = "Infinity".toList then
    (if sign = 1 then .posInf else .negInf)
  else
    match parseDecLit cs with
    | some q => .fin (sign * q)
    | none => .nan

/-- Model of the ECMAScript string-to-number conversion used by `Number(x)`:
whitespace-trimmed, empty string is 0, optional sign, `Infinity`, decimal
literals with optional fraction and exponent, and unsigned hex literals. -/
def strToNum (s : String) : JSNum :=
  match trimWs s.toList with
  | [] => .fin 0
  | '0' :: 'x' :: ds => if ds ≠ [] && ds.all isHexDigitChar then .fin (natOfHexDigits ds) else .nan
  | '0' :: 'X' :: ds => if ds ≠ [] && ds.all isHexDigitChar then .fin (natOfHexDigits ds) else .nan
  | '+' :: rest => parseSignedTail rest 1
  | '-' :: rest => parseSignedTail rest (-1)
  | rest => parseSignedTail rest 1

/-- Rendering of a JS number as a string, as used inside template literals.
Integral values print exactly as in JS; non-integral rationals are printed in
Lean rational notation, which is only ever observed for inputs no claim
exercises. -/
def numToString : JSNum → String
  | .nan => "NaN"
  | .posInf => "Infinity"
  | .negInf => "-Infinity"
  | .fin q => if q.den = 1 then toString q.num else toString q

mutual

/-- JS string conversion of a value (template-literal interpolation and the
`toString` used by `ToPrimitive` on arrays). -/
def jsToString : JSValue → String
  | .undefined => "undefined"
  | .null => "null"
  | .bool b => if b then "true" else "false"
  | .num n => numToString n
  | .str s => s
  | .arr elems => String.intercalate "," (jsToStringList elems)
  | .obj _ => "[object Object]"

/-- `Array.prototype.join`, where `null` and `undefined` elements render empty. -/
def jsToStringList : List JSValue → List String
  | [] => []
  | x :: xs =>
    (match x with
     | .undefined => ""
     | .null => ""
     | v => jsToString v) :: jsToStringList xs

end

/-- The ECMAScript `ToNumber` conversion. -/
def jsToNumber : JSValue → JSNum
  | .undefined => .nan
  | .null => .fin 0
  | .bool b => .fin (if b then 1 else 0)
  | .num n => n
  | .str s => strToNum s
  | .arr elems => strToNum (String.intercalate "," (jsToStringList elems))
  | .obj _ => .nan

/-- Canonical array-index reading of a property key (digit strings only). -/
def strAsIndex (s : String) : Option Nat :=
  if s.toList ≠ [] && s.toList.all Char.isDigit then some (natOfDigits s.toList) else none

/-- Property read `base[key]`.  In every embedded code path the base is either
a guarded plain object, an array, or a string, so the null/undefined TypeError
case of JS never arises and the remaining cases return `undefined`. -/
def getProp : JSValue → String → JSValue
  | .obj props, key => (((props.find? (fun p => p.1 == key)).map Prod.snd).getD .undefined)
  | .arr elems, key =>
    if key == "length" then .num (.fin elems.length)
    else
      match strAsIndex key with
      | some i => elems.getD i .undefined
      | none => .undefined
  | .str s, key =>
    if key == "length" then .num (.fin s.length)
    else
      match strAsIndex key with
      | some i =>
        if i < s.toList.length then .str (String.mk [s.toList.getD i ' ']) else .undefined
      | none => .undefined
  | _, _ => .undefined

/-- SameValueZero, the comparison used by `Array.prototype.includes`; NaN
matches NaN.  Distinct array/object references are never equal, which the
catch-all models. -/
def sameValueZero : JSValue → JSValue → Bool
  | .undefined, .undefined => true
  | .null, .null => true
  | .bool a, .bool b => a == b
  | .num a, .num b => a == b
  | .str a, .str b => a == b
  | _, _ => false

/-- Strict equality `===`; differs from SameValueZero only at NaN. -/
def jsStrictEq : JSValue → JSValue → Bool
  | .num .nan, _ => false
  | _, .num .nan => false
  | a, b => sameValueZero a b

/-- `list.includes(v)`. -/
def jsArrayIncludes (l : List JSValue) (v : JSValue) : Bool :=
  l.any (fun x => sameValueZero x v)

/-- The keys visited by `for (let k in x)`: array and string indices in order,
object keys in insertion order, nothing for primitives. -/
def enumKeys : JSValue → List String
  | .arr elems => (List.range elems.length).map (fun i => toString i)
  | .obj props => props.map Prod.fst
  | .str s => (List.range s.length).map (fun i => toString i)
  | _ => []

/-- Exceptions a run of the embedded code can raise.  `validationError` is the
`ValidationError` class of `utils/errors` — modelled from the spec: that file
is absent from the sources, and the spec describes it as a structured failure
carrying a message and a list of field/message detail objects, which callers
read back as `error.message` and `error.details`.  The other two constructors
model the engine-level `ReferenceError` and `TypeError` of JS. -/
inductive JSErr where
  | validationError (message : String) (details : JSValue)
  | typeError (message : String)
  | refError (message : String)
  deriving Repr

/-- `ObjectId.isValid` of the mongodb driver on a string argument (modelled
from the driver contract): a 24-character hex string, or any 12-character
string, is a valid id. -/
def objectIdIsValid (s : String) : Bool :=
  s.length == 12 || (s.length == 24 && s.toList.all isHexDigitChar)

/-- The shared email regular expression
`^[^\s@]+@[^\s@]+\.[^\s@]+$` (`EMAIL_REGEX` in users.js, `emailRegex` in
part_005): exactly one `@`, a nonempty whitespace-free local part, and a
whitespace-free domain containing a dot with at least one character on each
side. -/
def dotWithCharsAround (cs : List Char) : Bool :=
  (List.range cs.length).any
    (fun i => cs.getD i ' ' == '.' && decide (1 ≤ i) && decide (i + 2 ≤ cs.length))

def emailRegexTest (s : String) : Bool :=
  let sp := splitAtChar (fun c => c = '@') s.toList
  match sp.2 with
  | none => false
  | some dom =>
    if dom.contains '@' then false
    else
      (sp.1 ≠ []) && sp.1.all (fun c => !isWsChar c) &&
        dom.all (fun c => !isWsChar c) && dotWithCharsAround dom

/-- `ensurePlainObject` as defined in `src/controllers/users.js` and in the
first variant of `src/controllers/events.js` (the corrected guard; the copy in
part_005 is unused there). -/
def ensurePlainObject (value : JSValue) : JSValue :=
  if value.truthy && (value.typeOf == "object") && (!isArray value) then value else .null

/-- The ECMAScript TimeClip operation: time values beyond ±8.64e15 ms are
invalid, finite values are truncated toward zero. -/
def timeClip : JSNum → JSNum
  | .nan => .nan
  | .posInf => .nan
  | .negInf => .nan
  | .fin q =>
    if 8640000000000000 < |q| then .nan
    else .fin (if 0 ≤ q then ((Rat.floor q : ℤ) : ℚ) else ((Rat.ceil q : ℤ) : ℚ))

def isLeapYear (y : ℕ) : Bool :=
  (y % 4 == 0 && y % 100 != 0) || y % 400 == 0

def daysInMonth (y m : ℕ) : ℕ :=
  if m = 2 then (if isLeapYear y then 29 else 28)
  else if m = 4 || m = 6 || m = 9 || m = 11 then 30
  else 31

/-- Number of leap years in `[1, n]`. -/
def leapCount (n : ℕ) : ℕ :=
  n / 4 - n / 100 + n / 400

/-- Days of year `y` that precede month `m`. -/
def cumMonthDays (y m : ℕ) : ℕ :=
  (List.range (m - 1)).foldl (fun a i => a + daysInMonth y (i + 1)) 0

/-- Days from 1970-01-01 to the given calendar date (proleptic Gregorian,
year ≥ 1 as produced by the 4-digit parse below). -/
def daysFromEpoch (y m d : ℕ) : ℤ :=
  (365 : ℤ) * ((y : ℤ) - 1970) + ((leapCount (y - 1) : ℤ) - (leapCount 1969 : ℤ))
    + (cumMonthDays y m : ℤ) + ((d : ℤ) - 1)

def parseDatePart : List Char → Option (ℕ × ℕ × ℕ)
  | [y1, y2, y3, y4, '-', m1, m2, '-', d1, d2] =>
    if [y1, y2, y3, y4, m1, m2, d1, d2].all Char.isDigit then
      let y := natOfDigits [y1, y2, y3, y4]
      let m := natOfDigits [m1, m2]
      let d := natOfDigits [d1, d2]
      if 1 ≤ m && m ≤ 12 && 1 ≤ d && d ≤ daysInMonth y m then some (y, m, d) else none
    else none
  | _ => none

/-- Time-of-day part `HH:MM`, `HH:MM:SS` or `HH:MM:SS.sss`, in milliseconds. -/
def parseTimePart : List Char → Option ℕ
  | [h1, h2, ':', m1, m2] =>
    if [h1, h2, m1, m2].all Char.isDigit then
      let h := natOfDigits [h1, h2]
      let mi := natOfDigits [m1, m2]
      if h ≤ 23 && mi ≤ 59 then some (h * 3600000 + mi * 60000) else none
    else none
  | [h1, h2, ':', m1, m2, ':', s1, s2] =>
    if [h1, h2, m1, m2, s1, s2].all Char.isDigit then
      let h := natOfDigits [h1, h2]
      let mi := natOfDigits [m1, m2]
      let se := natOfDigits [s1, s2]
      if h ≤ 23 && mi ≤ 59 && se ≤ 59 then some (h * 3600000 + mi * 60000 + se * 1000) else none
    else none
  | [h1, h2, ':', m1, m2, ':', s1, s2, '.', f1, f2, f3] =>
    if [h1, h2, m1, m2, s1, s2, f1, f2, f3].all Char.isDigit then
      let h := natOfDigits [h1, h2]
      let mi := natOfDigits [m1, m2]
      let se := natOfDigits [s1, s2]
      if h ≤ 23 && mi ≤ 59 && se ≤ 59 then
        some (h * 3600000 + mi * 60000 + se * 1000 + natOfDigits [f1, f2, f3])
      else none
    else none
  | _ => none

/-- Date.parse restricted to the ISO forms the service exchanges:
`YYYY-MM-DD` and `YYYY-MM-DDTHH:MM[:SS[.sss]]Z` (both UTC); every other string
is an invalid date in this model. -/
def parseDateStringQ (s : String) : Option ℚ :=
  let sp := splitAtChar (fun c => c = 'T') s.toList
  match sp.2 with
  | none =>
    (parseDatePart sp.1).map
      (fun ymd => (daysFromEpoch ymd.1 ymd.2.1 ymd.2.2 : ℚ) * 86400000)
  | some rest =>
    match parseDatePart sp.1 with
    | none => none
    | some ymd =>
      if rest.getLast? = some 'Z' then
        (parseTimePart rest.dropLast).map
          (fun ms => (daysFromEpoch ymd.1 ymd.2.1 ymd.2.2 : ℚ) * 86400000 + (ms : ℚ))
      else none

/-- Time value of `new Date(value)`: strings (and arrays, via their string
conversion) go through the date-string parse, everything else through
`ToNumber` and TimeClip. -/
def jsDateParse : JSValue → JSNum
  | .str s =>
    match parseDateStringQ s with
    | some q => .fin q
    | none => .nan
  | .arr elems =>
    match parseDateStringQ (String.intercalate "," (jsToStringList elems)) with
    | some q => .fin q
    | none => .nan
  | .obj _ => .nan
  | v => timeClip (jsToNumber v)

/-!
Embedding of the schema-driven validator of `src/unnamed/part_005`
(`validFieldTypes`, the per-type parsers, and `validateUserPayload`).

The per-type parsers take an `addErrMessage` callback; the embedding returns
the list of argument pairs passed to that callback together with the function
result (`undefined` on the bare `return` statements).  All of them are total
JS functions except `parseOptionsField`, whose first statement reads the
undeclared binding named `options` and therefore raises a ReferenceError, so
every parser is given the `Except JSErr` result type.
-/

namespace Part005

def validFieldTypes : List JSValue :=
  [.str "string", .str "email", .str "number", .str "date", .str "ownerId", .str "options"]

/-- `parseDateField` (part_005 lines 40-49).  The returned `Date` object is
modelled by its time value. -/
def parseDateField (field value : JSValue) : Except JSErr (List (JSValue × String) × JSValue) :=
  let date := jsDateParse value
  if date = .nan then
    .ok ([(getProp field "name", jsToString (getProp field "name") ++ " must be a valid date.")], .undefined)
  else
    .ok ([], .num date)

/-- `parseStringField` (part_005 lines 51-64). -/
def parseStringField (field value : JSValue) : Except JSErr (List (JSValue × String) × JSValue) :=
  match value with
  | .str s =>
    let trimmed := trimWsStr s
    if trimmed.isEmpty then
      .ok ([(getProp field "name", jsToString (getProp field "name") ++ " must be a non-empty string.")], .undefined)
    else
      .ok ([], .str trimmed)
  | _ =>
    .ok ([(getProp field "name", jsToString (getProp field "name") ++ " must be a string.")], .undefined)

/-- `parseEmailField` (part_005 lines 66-85). -/
def parseEmailField (field value : JSValue) : Except JSErr (List (JSValue × String) × JSValue) :=
  match value with
  | .str s =>
    let trimmed := trimWsStr s
    if trimmed.isEmpty then
      .ok ([(getProp field "name", jsToString (getProp field "name") ++ " must be a non-empty email string.")], .undefined)
    else if !emailRegexTest trimmed then
      .ok ([(getProp field "name", jsToString (getProp field "name") ++ " must be a valid email address.")], .undefined)
    else
      .ok ([], .str trimmed)
  | _ =>
    .ok ([(getProp field "name", jsToString (getProp field "name") ++ " must be a string.")], .undefined)

/-- Check of `field.max` inside `parseNumberField` (lines 100-103):
`typeof field.max === 'number' && num > field.max`. -/
def numberMaxCheck (field : JSValue) (num : JSNum) : Except JSErr (List (JSValue × String) × JSValue) :=
  match getProp field "max" with
  | .num m =>
    if JSNum.lt m num then
      .ok ([(getProp field "name",
             jsToString (getProp field "name") ++ " must be less than or equal to " ++ numToString m ++ ".")], .undefined)
    else
      .ok ([], .num num)
  | _ => .ok ([], .num num)

/-- The coercion on line 88 of part_005:
`typeof value === 'number' ? value : Number(value)`. -/
def coerceNumber : JSValue → JSNum
  | .num n => n
  | v => jsToNumber v

/-- `parseNumberField` (part_005 lines 87-106): coerce with `Number`, reject
only `NaN` via `Number.isNaN`, then the optional `min`/`max` bounds. -/
def parseNumberField (field value : JSValue) : Except JSErr (List (JSValue × String) × JSValue) :=
  if coerceNumber value = .nan then
    .ok ([(getProp field "name", jsToString (getProp field "name") ++ " must be a valid number.")], .undefined)
  else
    match getProp field "min" with
    | .num m =>
      if JSNum.lt (coerceNumber value) m then
        .ok ([(getProp field "name",
               jsToString (getProp field "name") ++ " must be greater than or equal to " ++ numToString m ++ ".")], .undefined)
      else
        numberMaxCheck field (coerceNumber value)
    | _ => numberMaxCheck field (coerceNumber value)

/-- `parseOwnerId` (part_005 lines 108-120); `ObjectId` is imported, so the
`typeof ObjectId === 'undefined'` disjunct is false. -/
def parseOwnerId (field value : JSValue) : Except JSErr (List (JSValue × String) × JSValue) :=
  match parseStringField field value with
  | .error e => .error e
  | .ok r =>
    if r.2.truthy = false then
      .ok (r.1, .undefined)
    else if !objectIdIsValid (jsToString r.2) then
      .ok (r.1 ++ [(getProp field "name", jsToString (getProp field "name") ++ " must be a valid Mongo ObjectId string.")], .undefined)
    else
      .ok (r.1, r.2)

/-- `parseOptionsField` (part_005 lines 122-139).  Its first statement,
`if (!options.length)`, reads the undeclared binding named `options`
(the code should have read `field.options`), so every invocation raises a
ReferenceError before looking at its arguments. -/
def parseOptionsField (_field _value : JSValue) : Except JSErr (List (JSValue × String) × JSValue) :=
  .error (.refError "options is not defined")

/-- The detail entry pushed by the unknown-type branch of the field loop
(part_005 lines 166-172); note the source misspells the `message` key as
`mesage` there. -/
def invalidTypeEntry (field : JSValue) : JSValue :=
  .obj [("field", getProp field "name"),
        ("mesage", .str ("Invalid type: \"" ++ jsToString (getProp field "type") ++ "\"."))]

/-- The detail entry pushed by the empty-options branch (lines 173-179),
message typo included. -/
def emptyOptionsEntry (field : JSValue) : JSValue :=
  .obj [("field", getProp field "name"), ("message", .str "\"Options\" are requred.")]

/-- One iteration of `for (let field in fields)` (part_005 lines 165-191).
`for...in` binds `field` to each KEY of `fields`, a string, so `field.type`
and `field.name` are property reads on a string.  If neither `continue` fires,
the next statement (line 180) evaluates the undeclared identifier `value`,
raising a ReferenceError; lines 187-191 are behind that read. -/
def processField (k : String) : Except JSErr (List JSValue) :=
  let field : JSValue := .str k
  if !(jsArrayIncludes validFieldTypes (getProp field "type")) then
    .ok [invalidTypeEntry field]
  else if jsStrictEq (getProp field "type") (.str "options") &&
      (isArray (getProp field "options") && arrayLength (getProp field "options") == 0) then
    .ok [emptyOptionsEntry field]
  else
    .error (.refError "value is not defined")

/-- The whole field loop, accumulating pushed error entries in order. -/
def runFieldLoop : List String → Except JSErr (List JSValue)
  | [] => .ok []
  | k :: ks =>
    match processField k with
    | .error e => .error e
    | .ok entries =>
      match runFieldLoop ks with
      | .error e => .error e
      | .ok rest => .ok (entries ++ rest)

/-- The single-entry details array thrown by the body guard (part_005
lines 154-159). -/
def bodyErrorDetails : JSValue :=
  .arr [.obj [("field", .str "body"), ("message", .str "Request body must be a JSON object.")]]

/-- The tail of `validateUserPayload` (part_005 lines 194-198): throw the
collected errors, else return `data` (never written, hence the empty object). -/
def finishValidate : Except JSErr (List JSValue) → Except JSErr JSValue
  | .error e => .error e
  | .ok errors =>
    if errors.length ≠ 0 then
      .error (.validationError "Invalid user payload." (.arr errors))
    else
      .ok (.obj [])

/-- `validateUserPayload` of part_005 (lines 152-199), embedded exactly as
written: the guard is `if (body && typeof body === 'object') throw ...` — with
no negation — so the body error is thrown precisely for truthy `object`-typed
inputs; otherwise the `for...in` loop over `fields` runs, and since `data` is
never written on any reachable path the success value is the empty object. -/
def validateUserPayload (body fields : JSValue) : Except JSErr JSValue :=
  if body.truthy && (body.typeOf == "object") then
    .error (.validationError "Invalid user payload." bodyErrorDetails)
  else
    finishValidate (runFieldLoop (enumKeys fields))

end Part005

/-!
Embedding of `validateUserPayload` of `src/controllers/users.js` (the
hand-rolled variant with the corrected body guard).  Its options argument is
destructured as `{ requireAllFields = false }`; both call sites pass a boolean
literal, so the embedding takes a `Bool`.
-/

namespace UsersController

def errEntry (f m : String) : JSValue :=
  .obj [("field", .str f), ("message", .str m)]

/-- The `collectStringField` closure (users.js lines 46-77): returns the
trimmed value to be written into `sanitized` (if any) and the error entries
pushed. -/
def collectStringField (body : JSValue) (requireAllFields : Bool) (field : String) :
    Option String × List JSValue :=
  match getProp body field with
  | .undefined =>
    if requireAllFields then (none, [errEntry field (field ++ " is required.")]) else (none, [])
  | .null =>
    if requireAllFields then (none, [errEntry field (field ++ " is required.")]) else (none, [])
  | .str s =>
    let trimmed := trimWsStr s
    if trimmed.isEmpty then (none, [errEntry field (field ++ " must be a non-empty string.")])
    else (some trimmed, [])
  | _ => (none, [errEntry field (field ++ " must be a string.")])

/-- One `subscribet_to` entry (users.js lines 98-125): the cleaned id to push
(if any) and the error entries pushed for this index. -/
def collectSubEntry (index : Nat) (value : JSValue) : Option String × List JSValue :=
  match value with
  | .str s =>
    let trimmed := trimWsStr s
    if trimmed.isEmpty then
      (none, [errEntry ("subscribet_to[" ++ toString index ++ "]") "Entries cannot be empty strings."])
    else if !objectIdIsValid trimmed then
      (none, [errEntry ("subscribet_to[" ++ toString index ++ "]") "Each entry must be a valid Mongo ObjectId string."])
    else
      (some trimmed, [])
  | _ => (none, [errEntry ("subscribet_to[" ++ toString index ++ "]") "Each entry must be a string."])

/-- The `forEach` over the `subscribet_to` array, threading the index. -/
def collectSubs : List JSValue → Nat → List String × List JSValue
  | [], _ => ([], [])
  | v :: rest, index =>
    let ce := collectSubEntry index v
    let tail := collectSubs rest (index + 1)
    ((match ce.1 with | some s => [s] | none => []) ++ tail.1, ce.2 ++ tail.2)

/-- `[...new Set(cleaned)]`: deduplication keeping first occurrences. -/
def dedupKeepFirst : List String → List String := go []
where
  go (seen : List String) : List String → List String
    | [] => []
    | x :: xs => if seen.contains x then go seen xs else x :: go (x :: seen) xs

def sanitizedOf (name : String) : Option String → List (String × JSValue)
  | some t => [(name, .str t)]
  | none => []

/-- The whole collection phase of users.js `validateUserPayload`
(lines 43-131): the `sanitized` association list in insertion order and the
`errors` list in push order. -/
def collectUserFields (body : JSValue) (requireAllFields : Bool) :
    List (String × JSValue) × List JSValue :=
  let fn := collectStringField body requireAllFields "first_name"
  let ln := collectStringField body requireAllFields "last_name"
  let em := collectStringField body requireAllFields "email"
  let emailErrs :=
    match em.1 with
    | some t => if emailRegexTest t then [] else [errEntry "email" "email must be a valid email address."]
    | none => []
  let subs : List (String × JSValue) × List JSValue :=
    match getProp body "subscribet_to" with
    | .undefined => (if requireAllFields then [("subscribet_to", JSValue.arr [])] else [], [])
    | .arr elems =>
      let cl := collectSubs elems 0
      ([("subscribet_to", JSValue.arr ((dedupKeepFirst cl.1).map JSValue.str))], cl.2)
    | _ => ([], [errEntry "subscribet_to" "subscribet_to must be an array."])
  (sanitizedOf "first_name" fn.1 ++ sanitizedOf "last_name" ln.1 ++ sanitizedOf "email" em.1 ++ subs.1,
   fn.2 ++ ln.2 ++ em.2 ++ emailErrs ++ subs.2)

/-- `validateUserPayload` of users.js (lines 31-142): guard the body with
`ensurePlainObject`, collect fields, throw the aggregated errors if any, then
reject an empty `sanitized` on non-create calls, else return `sanitized`. -/
def validateUserPayload (payload : JSValue) (requireAllFields : Bool) : Except JSErr JSValue :=
  if (ensurePlainObject payload).truthy = false then
    .error (.validationError "Invalid user payload."
      (.arr [.obj [("field", .str "body"), ("message", .str "Request body must be a JSON object.")]]))
  else if (collectUserFields (ensurePlainObject payload) requireAllFields).2.length ≠ 0 then
    .error (.validationError "Invalid user payload."
      (.arr (collectUserFields (ensurePlainObject payload) requireAllFields).2))
  else if (collectUserFields (ensurePlainObject payload) requireAllFields).1.length == 0 && !requireAllFields then
    .error (.validationError "No valid user fields provided for update." .undefined)
  else
    .ok (.obj (collectUserFields (ensurePlainObject payload) requireAllFields).1)

end UsersController

/-!
Embedding of the first variant of `src/controllers/events.js`:
`createFieldError`, `parseDateField`, `parseStringField`, `parseOwnerId` and
`buildEventDocument` (lines 13-111).  These parsers throw on the first error.
-/

namespace EventsController

def VISIBILITY_OPTIONS : List String := ["public", "subscribers", "private"]

def createFieldError (field message : String) : JSErr :=
  .validationError "Invalid event payload."
    (.arr [.obj [("field", .str field), ("message", .str message)]])

/-- `parseDateField` (events.js lines 21-33); the `Date` result is modelled by
its time value. -/
def parseDateField (value : JSValue) (fieldName : String) : Except JSErr JSNum :=
  match value with
  | .undefined => .error (createFieldError fieldName (fieldName ++ " is required."))
  | .null => .error (createFieldError fieldName (fieldName ++ " is required."))
  | v =>
    if jsDateParse v = .nan then
      .error (createFieldError fieldName (fieldName ++ " must be a valid date."))
    else .ok (jsDateParse v)

/-- `parseStringField` (events.js lines 35-50). -/
def parseStringField (value : JSValue) (fieldName : String) : Except JSErr String :=
  match value with
  | .undefined => .error (createFieldError fieldName (fieldName ++ " is required."))
  | .null => .error (createFieldError fieldName (fieldName ++ " is required."))
  | .str s =>
    let trimmed := trimWsStr s
    if trimmed.isEmpty then .error (createFieldError fieldName (fieldName ++ " must be a non-empty string."))
    else .ok trimmed
  | _ => .error (createFieldError fieldName (fieldName ++ " must be a string."))

/-- `parseOwnerId` (events.js lines 52-60). -/
def parseOwnerId (value : JSValue) : Except JSErr String :=
  match parseStringField value "ownerID" with
  | .error e => .error e
  | .ok ownerId =>
    if !objectIdIsValid ownerId then
      .error (createFieldError "ownerID" "ownerID must be a valid Mongo ObjectId string.")
    else .ok ownerId

/-- The validated event document; date fields are Date time values. -/
structure EventDoc where
  ownerID : String
  visibility : String
  googlePoint : String
  description : String
  datetime_start : JSNum
  datetime_end : JSNum
  period : JSNum
  repeatUntil : JSNum
  deriving Repr

/-- The three ordering guards at the end of `buildEventDocument`
(events.js lines 89-110), applied after all fields parsed. -/
def finishEventDocument (ownerID visibility googlePoint description : String)
    (dts dte per ru : JSNum) : Except JSErr EventDoc :=
  if JSNum.lt dte dts then
    .error (createFieldError "datetime_end" "datetime_end must be greater than datetime_start.")
  else if JSNum.lt ru dts then
    .error (createFieldError "repeatUntil" "repeatUntil must be greater than datetime_start.")
  else if JSNum.lt ru dte then
    .error (createFieldError "repeatUntil" "repeatUntil must be on or after datetime_end.")
  else
    .ok { ownerID := ownerID, visibility := visibility, googlePoint := googlePoint,
          description := description, datetime_start := dts, datetime_end := dte,
          period := per, repeatUntil := ru }

/-- `buildEventDocument` (events.js lines 62-111); `body` is written out as
`ensurePlainObject payload` at each use site. -/
def buildEventDocument (payload : JSValue) : Except JSErr EventDoc :=
  if (ensurePlainObject payload).truthy = false then
    .error (createFieldError "body" "Request body must be a JSON object.")
  else
    match parseOwnerId (getProp (ensurePlainObject payload) "ownerID") with
    | .error e => .error e
    | .ok ownerID =>
      match parseStringField (getProp (ensurePlainObject payload) "visibility") "visibility" with
      | .error e => .error e
      | .ok visibility =>
        if !VISIBILITY_OPTIONS.contains visibility then
          .error (createFieldError "visibility"
            "visibility must be one of: \x27public\x27, \x27subscribers\x27, or \x27private\x27.")
        else
          match parseStringField (getProp (ensurePlainObject payload) "googlePoint") "googlePoint" with
          | .error e => .error e
          | .ok googlePoint =>
            match parseStringField (getProp (ensurePlainObject payload) "description") "description" with
            | .error e => .error e
            | .ok description =>
              match parseDateField (getProp (ensurePlainObject payload) "datetime_start") "datetime_start" with
              | .error e => .error e
              | .ok dts =>
                match parseDateField (getProp (ensurePlainObject payload) "datetime_end") "datetime_end" with
                | .error e => .error e
                | .ok dte =>
                  match parseDateField (getProp (ensurePlainObject payload) "period") "period" with
                  | .error e => .error e
                  | .ok per =>
                    match parseDateField (getProp (ensurePlainObject payload) "repeatUntil") "repeatUntil" with
                    | .error e => .error e
                    | .ok ru =>
                      finishEventDocument ownerID visibility googlePoint description dts dte per ru

end EventsController

/-!
Helper lemmas about the part_005 field loop.  Because `for (let field in
fields)` binds `field` to a KEY string, `field.type` is a property read on a
string and always yields `undefined`, so every iteration takes the
unknown-type branch.
-/

/-- The error entry every loop iteration pushes (`field.name` and `field.type`
are `undefined` on a key string; the `message` key is misspelled in source). -/
def undefTypeEntry : JSValue :=
  .obj [("field", .undefined), ("mesage", .str "Invalid type: \"undefined\".")]

theorem part005_processField_eq (k : String) :
    Part005.processField k = .ok [undefTypeEntry] := rfl

theorem part005_runFieldLoop_eq (ks : List String) :
    Part005.runFieldLoop ks = .ok (ks.map (fun _ => undefTypeEntry)) := by
  induction ks with
  | nil => rfl
  | cons k ks ih =>
    simp only [Part005.runFieldLoop, part005_processField_eq, ih, List.map_cons]
    rfl

/-- C1: the claim says a non-object input fails with exactly the single
`body` error and a plain object never triggers that failure.  The code has the
guard inverted (`if (body && typeof body === 'object') throw ...`, with no
negation), so the empty plain object `{}` raises the body error while `null`
sails through and even succeeds with an empty result.  This theorem evaluates
the embedded `validateUserPayload` at both failing inputs. -/
theorem c1_inverted_body_guard :
    Part005.validateUserPayload (.obj []) (.arr []) =
      .error (.validationError "Invalid user payload." Part005.bodyErrorDetails) ∧
    Part005.validateUserPayload .null (.arr []) = .ok (.obj []) :=
  ⟨rfl, rfl⟩

/-- C2: every run of part_005 `validateUserPayload` either succeeds or throws
the structured `ValidationError`; neither the ReferenceError sites (the
undeclared `value` on line 180 and `options` in `parseOptionsField`) nor any
TypeError is reachable, because every loop iteration exits through the
unknown-type branch and so surfaces as a per-field error entry rather than a
crash. -/
theorem c2_only_structured_validation_failure (body fields : JSValue) :
    (∃ v, Part005.validateUserPayload body fields = .ok v) ∨
    (∃ m d, Part005.validateUserPayload body fields = .error (.validationError m d)) := by
  unfold Part005.validateUserPayload
  by_cases hb : (body.truthy && (body.typeOf == "object")) = true
  · rw [if_pos hb]
    right
    exact ⟨_, _, rfl⟩
  · rw [if_neg hb, part005_runFieldLoop_eq]
    simp only [Part005.finishValidate]
    by_cases hl : ((enumKeys fields).map (fun _ => undefTypeEntry)).length ≠ 0
    · rw [if_pos hl]
      right
      exact ⟨_, _, rfl⟩
    · rw [if_neg hl]
      left
      exact ⟨_, rfl⟩

/-- Schema with one required string field named `a`. -/
def schemaOneString : JSValue :=
  .arr [.obj [("name", .str "a"), ("type", .str "string"), ("required", .bool true)]]

/-- Schema with two required string fields `a` and `b`. -/
def schemaTwoStrings : JSValue :=
  .arr [.obj [("name", .str "a"), ("type", .str "string"), ("required", .bool true)],
        .obj [("name", .str "b"), ("type", .str "string"), ("required", .bool true)]]

/-- C3: the claim says a plain-object input with several failing fields yields
one aggregated error entry per failing field.  On any plain object the
inverted body guard throws the single body-level error before any field is
examined, so with two type-violating fields the error list still has exactly
one entry, about `body`. -/
theorem c3_no_per_field_aggregation :
    Part005.validateUserPayload (.obj [("a", .num (.fin 1)), ("b", .num (.fin 2))]) schemaTwoStrings =
      .error (.validationError "Invalid user payload." Part005.bodyErrorDetails) ∧
    arrayLength Part005.bodyErrorDetails = 1 ∧
    getProp (getProp Part005.bodyErrorDetails "0") "field" = .str "body" :=
  ⟨rfl, rfl, rfl⟩

/-- C4: the claim says the error list is ordered by the schema fields that
fail, independently of input key order.  Both key orders of the same binding
set indeed give identical output, but that output is the single body-level
error — the schema field `a`, the only field that fails under the specified
semantics, never appears. -/
theorem c4_error_list_not_schema_ordered :
    Part005.validateUserPayload (.obj [("a", .num (.fin 1)), ("x", .bool true)]) schemaOneString =
      .error (.validationError "Invalid user payload." Part005.bodyErrorDetails) ∧
    Part005.validateUserPayload (.obj [("x", .bool true), ("a", .num (.fin 1))]) schemaOneString =
      .error (.validationError "Invalid user payload." Part005.bodyErrorDetails) ∧
    getProp (getProp Part005.bodyErrorDetails "0") "field" = .str "body" :=
  ⟨rfl, rfl, rfl⟩

/-- C5: the claim says a required field absent from a plain-object input is
reported with one `required` error and no sanitized value.  The inverted body
guard throws the body-level error on the empty object instead, so the
`a is required.` entry is never produced. -/
theorem c5_required_absent_not_reported :
    Part005.validateUserPayload (.obj []) schemaOneString =
      .error (.validationError "Invalid user payload." Part005.bodyErrorDetails) ∧
    getProp (getProp Part005.bodyErrorDetails "0") "message" =
      .str "Request body must be a JSON object." :=
  ⟨rfl, rfl⟩

/-- Schema with one optional string field named `nickname`. -/
def schemaOptionalNickname : JSValue :=
  .arr [.obj [("name", .str "nickname"), ("type", .str "string"), ("required", .bool false)]]

/-- C6: the claim says a plain-object input omitting an optional field
validates successfully with the field simply left out of the sanitized
output.  The code instead throws the body-level error on every plain object,
so the call never succeeds at all. -/
theorem c6_optional_absent_does_not_succeed :
    Part005.validateUserPayload (.obj []) schemaOptionalNickname =
      .error (.validationError "Invalid user payload." Part005.bodyErrorDetails) :=
  rfl

/-- C7 counterexample: for the users.js validator, the empty plain object
under `requireAllFields = false` produces no field error at all, yet
validation does not succeed — the validator itself rejects the empty update
with its own failure, contrary to the claim that returning a zero-key mapping
is the validator outcome and empty-update rejection is the caller's job. -/
theorem c7_empty_update_rejected :
    UsersController.collectUserFields (ensurePlainObject (.obj [])) false = ([], []) ∧
    UsersController.validateUserPayload (.obj []) false =
      .error (.validationError "No valid user fields provided for update." .undefined) :=
  ⟨rfl, rfl⟩

/-- C7 (amended): for every plain-object input on which no field produces an
error, the users.js validator returns the sanitized mapping when the mapping
is non-empty or `requireAllFields` is set; when the mapping has zero keys and
`requireAllFields` is false it instead fails with the dedicated
`No valid user fields provided for update.` error — empty-update rejection
happens inside the validator. -/
theorem c7_empty_sanitized_amended (payload : JSValue) (requireAllFields : Bool)
    (hbody : (ensurePlainObject payload).truthy = true)
    (herr : (UsersController.collectUserFields (ensurePlainObject payload) requireAllFields).2 = []) :
    UsersController.validateUserPayload payload requireAllFields =
      (if (UsersController.collectUserFields (ensurePlainObject payload) requireAllFields).1.length == 0
          && !requireAllFields
       then .error (.validationError "No valid user fields provided for update." .undefined)
       else .ok (.obj (UsersController.collectUserFields (ensurePlainObject payload) requireAllFields).1)) := by
  unfold UsersController.validateUserPayload
  rw [hbody]
  simp [herr]

/-- C7 witness: a one-field update passes the amended theorem's hypotheses and
returns its singleton sanitized mapping. -/
theorem c7_empty_sanitized_amended_witness :
    UsersController.validateUserPayload (.obj [("first_name", .str "Ann")]) false =
      .ok (.obj [("first_name", .str "Ann")]) := by
  have h := c7_empty_sanitized_amended (.obj [("first_name", .str "Ann")]) false rfl rfl
  exact h.trans rfl

/-- Descriptor for a `number` field with optional `min`/`max` bounds. -/
def mkNumberField (name : String) (mn mx : Option ℚ) : JSValue :=
  .obj ([("name", JSValue.str name)] ++
    (match mn with
     | some a => [("min", JSValue.num (.fin a))]
     | none => []) ++
    (match mx with
     | some b => [("max", JSValue.num (.fin b))]
     | none => []))

theorem mkNumberField_name (name : String) (mn mx : Option ℚ) :
    getProp (mkNumberField name mn mx) "name" = .str name := by
  cases mn <;> cases mx <;> rfl

theorem mkNumberField_min (name : String) (mn mx : Option ℚ) :
    getProp (mkNumberField name mn mx) "min" =
      (match mn with
       | some a => JSValue.num (.fin a)
       | none => JSValue.undefined) := by
  cases mn <;> cases mx <;> rfl

theorem mkNumberField_max (name : String) (mn mx : Option ℚ) :
    getProp (mkNumberField name mn mx) "max" =
      (match mx with
       | some b => JSValue.num (.fin b)
       | none => JSValue.undefined) := by
  cases mn <;> cases mx <;> rfl

/-- C8 counterexample: the claim requires rejecting every value whose coercion
is not a finite number, but `parseNumberField` only tests `Number.isNaN`, so
`Infinity` on a field with `min = 0` and no `max` is accepted with no error
and returned as the parsed value. -/
theorem c8_infinite_value_accepted :
    Part005.parseNumberField (mkNumberField "age" (some 0) none) (.num .posInf) =
      .ok ([], .num .posInf) := rfl

/-- C8 (amended): `parseNumberField` coerces the value with `Number`, rejects
it exactly when the coerced value is NaN (infinities pass that test), and for
a finitely-coerced value with finite configured bounds accepts — returning the
coerced number with no error — exactly when the value lies in the inclusive
interval `[min, max]`. -/
theorem c8_number_parser_amended (name : String) (mn mx : Option ℚ) (value : JSValue) :
    (Part005.coerceNumber value = .nan →
      Part005.parseNumberField (mkNumberField name mn mx) value =
        .ok ([(JSValue.str name, name ++ " must be a valid number.")], .undefined)) ∧
    (∀ q : ℚ, Part005.coerceNumber value = .fin q →
      (Part005.parseNumberField (mkNumberField name mn mx) value = .ok ([], .num (.fin q)) ↔
        (∀ a ∈ mn, a ≤ q) ∧ (∀ b ∈ mx, q ≤ b))) := by
  constructor
  · intro hnan
    unfold Part005.parseNumberField
    rw [hnan, mkNumberField_name]
    simp [jsToString]
  · intro q hq
    unfold Part005.parseNumberField Part005.numberMaxCheck
    rw [hq, mkNumberField_min, mkNumberField_max]
    rcases mn with _ | a
    · rcases mx with _ | b
      · simp
      · by_cases hbq : b < q
        · have hnb : ¬ q ≤ b := not_le.mpr hbq
          simp [JSNum.lt, hbq, hnb]
        · have hqb : q ≤ b := not_lt.mp hbq
          simp [JSNum.lt, hbq, hqb]
    · by_cases hqa : q < a
      · have hna : ¬ a ≤ q := not_le.mpr hqa
        rcases mx with _ | b
        · simp [JSNum.lt, hqa, hna]
        · simp [JSNum.lt, hqa, hna]
      · have haq : a ≤ q := not_lt.mp hqa
        rcases mx with _ | b
        · simp [JSNum.lt, hqa, haq]
        · by_cases hbq : b < q
          · have hnb : ¬ q ≤ b := not_le.mpr hbq
            simp [JSNum.lt, hqa, hbq, hnb]
          · have hqb : q ≤ b := not_lt.mp hbq
            simp [JSNum.lt, hqa, hbq, haq, hqb]

/-- C8 witness: with bounds `[0, 10]` the in-range input `5` is accepted as
`5` by the amended characterisation. -/
theorem c8_number_parser_amended_witness :
    Part005.parseNumberField (mkNumberField "age" (some 0) (some 10)) (.num (.fin 5)) =
      .ok ([], .num (.fin 5)) := by
  have h := (c8_number_parser_amended "age" (some 0) (some 10) (.num (.fin 5))).2 5 rfl
  exact h.mpr (by constructor <;> (intro x hx; simp at hx; subst hx; norm_num))

/-- C9: the part_005 validator is deterministic and stateless.  The embedding
is a state-free function — faithful because the source touches no module-level
mutable binding (`errors` and `data` are per-call locals) — so two runs on the
same (schema, input) pair necessarily produce the same sanitized mapping or
the same error list. -/
theorem c9_deterministic (body fields : JSValue) (r1 r2 : Except JSErr JSValue)
    (h1 : Part005.validateUserPayload body fields = r1)
    (h2 : Part005.validateUserPayload body fields = r2) : r1 = r2 :=
  h1.symm.trans h2

/-- C9 witness: two runs at a concrete pair agree. -/
theorem c9_deterministic_witness :
    Part005.validateUserPayload .null (.arr []) = .ok (.obj []) ∧
    (Except.ok (JSValue.obj []) : Except JSErr JSValue) = .ok (.obj []) :=
  ⟨rfl, c9_deterministic .null (.arr []) _ _ rfl rfl⟩

theorem timeClip_nan_or_fin (n : JSNum) : timeClip n = .nan ∨ ∃ q, timeClip n = .fin q := by
  cases n with
  | nan => left; rfl
  | posInf => left; rfl
  | negInf => left; rfl
  | fin q =>
    simp only [timeClip]
    by_cases h : (8640000000000000 : ℚ) < |q|
    · rw [if_pos h]
      left
      rfl
    · rw [if_neg h]
      right
      exact ⟨_, rfl⟩

/-- A date time value is either NaN or finite; the infinities are clipped. -/
theorem jsDateParse_nan_or_fin (v : JSValue) :
    jsDateParse v = .nan ∨ ∃ q, jsDateParse v = .fin q := by
  cases v with
  | str s =>
    simp only [jsDateParse]
    cases h : parseDateStringQ s with
    | none => left; rfl
    | some q => right; exact ⟨q, rfl⟩
  | arr elems =>
    simp only [jsDateParse]
    cases h : parseDateStringQ (String.intercalate "," (jsToStringList elems)) with
    | none => left; rfl
    | some q => right; exact ⟨q, rfl⟩
  | obj props => left; rfl
  | undefined => exact timeClip_nan_or_fin (jsToNumber .undefined)
  | null => exact timeClip_nan_or_fin (jsToNumber .null)
  | bool b => exact timeClip_nan_or_fin (jsToNumber (.bool b))
  | num n => exact timeClip_nan_or_fin (jsToNumber (.num n))

/-- Inversion for the shared shape of the date check inside
`EventsController.parseDateField`. -/
theorem dateCheck_ok {d : JSNum} {e1 : JSErr} {t : JSNum}
    (h : (if d = JSNum.nan then Except.error e1 else Except.ok d) = Except.ok t) :
    t = d ∧ d ≠ JSNum.nan := by
  by_cases hn : d = JSNum.nan
  · rw [if_pos hn] at h
    exact absurd h (by simp)
  · rw [if_neg hn] at h
    exact ⟨(Except.ok.inj h).symm, hn⟩

/-- A successful `parseDateField` always returns a finite time value. -/
theorem parseDateField_ok_fin {v : JSValue} {name : String} {t : JSNum}
    (h : EventsController.parseDateField v name = .ok t) : ∃ q, t = JSNum.fin q := by
  cases v with
  | undefined => exact absurd h (by simp [EventsController.parseDateField])
  | null => exact absurd h (by simp [EventsController.parseDateField])
  | bool b =>
    obtain ⟨ht, hn⟩ := dateCheck_ok h
    rcases jsDateParse_nan_or_fin (.bool b) with hcase | ⟨q, hq⟩
    · exact absurd hcase hn
    · exact ⟨q, ht.trans hq⟩
  | num n =>
    obtain ⟨ht, hn⟩ := dateCheck_ok h
    rcases jsDateParse_nan_or_fin (.num n) with hcase | ⟨q, hq⟩
    · exact absurd hcase hn
    · exact ⟨q, ht.trans hq⟩
  | str s =>
    obtain ⟨ht, hn⟩ := dateCheck_ok h
    rcases jsDateParse_nan_or_fin (.str s) with hcase | ⟨q, hq⟩
    · exact absurd hcase hn
    · exact ⟨q, ht.trans hq⟩
  | arr elems =>
    obtain ⟨ht, hn⟩ := dateCheck_ok h
    rcases jsDateParse_nan_or_fin (.arr elems) with hcase | ⟨q, hq⟩
    · exact absurd hcase hn
    · exact ⟨q, ht.trans hq⟩
  | obj props =>
    exact absurd h (by simp [EventsController.parseDateField, jsDateParse])

/-- Inversion of the three ordering guards of `buildEventDocument`. -/
theorem finishEventDocument_ok {o vi g de : String} {dts dte per ru : JSNum}
    {doc : EventsController.EventDoc}
    (h : EventsController.finishEventDocument o vi g de dts dte per ru = .ok doc) :
    doc.datetime_start = dts ∧ doc.datetime_end = dte ∧ doc.period = per ∧
      doc.repeatUntil = ru ∧ JSNum.lt dte dts = false ∧ JSNum.lt ru dts = false ∧
      JSNum.lt ru dte = false := by
  unfold EventsController.finishEventDocument at h
  by_cases h1 : JSNum.lt dte dts = true
  · rw [if_pos h1] at h
    exact absurd h (by simp)
  · rw [if_neg h1] at h
    by_cases h2 : JSNum.lt ru dts = true
    · rw [if_pos h2] at h
      exact absurd h (by simp)
    · rw [if_neg h2] at h
      by_cases h3 : JSNum.lt ru dte = true
      · rw [if_pos h3] at h
        exact absurd h (by simp)
      · rw [if_neg h3] at h
        have hd := (Except.ok.inj h).symm
        subst hd
        simp only [Bool.not_eq_true] at h1 h2 h3
        exact ⟨rfl, rfl, rfl, rfl, h1, h2, h3⟩

/-- Failed `<` between finite time values flips into `≤`. -/
theorem le_of_lt_false_fin {a b : ℚ} (h : JSNum.lt (.fin b) (.fin a) = false) :
    JSNum.le (.fin a) (.fin b) = true := by
  simp only [JSNum.lt, decide_eq_false_iff_not, not_lt] at h
  simpa [JSNum.le] using h

/-- C10: whenever `buildEventDocument` returns a document, its four date
fields are valid (finite, hence non-NaN) instants, and they satisfy
`datetime_start ≤ datetime_end`, `datetime_start ≤ repeatUntil` and
`datetime_end ≤ repeatUntil`, because the parser rejects NaN dates and the
three trailing guards reject every strict violation of this ordering. -/
theorem c10_event_document_date_invariants (payload : JSValue)
    (doc : EventsController.EventDoc)
    (h : EventsController.buildEventDocument payload = .ok doc) :
    ((∃ q, doc.datetime_start = JSNum.fin q) ∧ (∃ q, doc.datetime_end = JSNum.fin q) ∧
      (∃ q, doc.period = JSNum.fin q) ∧ (∃ q, doc.repeatUntil = JSNum.fin q)) ∧
    JSNum.le doc.datetime_start doc.datetime_end = true ∧
    JSNum.le doc.datetime_start doc.repeatUntil = true ∧
    JSNum.le doc.datetime_end doc.repeatUntil = true := by
  unfold EventsController.buildEventDocument at h
  by_cases hb : (ensurePlainObject payload).truthy = false
  · rw [if_pos hb] at h
    exact absurd h (by simp)
  · rw [if_neg hb] at h
    cases ho : EventsController.parseOwnerId (getProp (ensurePlainObject payload) "ownerID") with
    | error e => rw [ho] at h; exact absurd h (by simp)
    | ok ownerID =>
    rw [ho] at h
    dsimp only at h
    cases hv : EventsController.parseStringField (getProp (ensurePlainObject payload) "visibility") "visibility" with
    | error e => rw [hv] at h; exact absurd h (by simp)
    | ok visibility =>
    rw [hv] at h
    dsimp only at h
    by_cases hvo : (!EventsController.VISIBILITY_OPTIONS.contains visibility) = true
    · rw [if_pos hvo] at h
      exact absurd h (by simp)
    · rw [if_neg hvo] at h
      cases hg : EventsController.parseStringField (getProp (ensurePlainObject payload) "googlePoint") "googlePoint" with
      | error e => rw [hg] at h; exact absurd h (by simp)
      | ok googlePoint =>
      rw [hg] at h
      dsimp only at h
      cases hde : EventsController.parseStringField (getProp (ensurePlainObject payload) "description") "description" with
      | error e => rw [hde] at h; exact absurd h (by simp)
      | ok description =>
      rw [hde] at h
      dsimp only at h
      cases h1 : EventsController.parseDateField (getProp (ensurePlainObject payload) "datetime_start") "datetime_start" with
      | error e => rw [h1] at h; exact absurd h (by simp)
      | ok dts =>
      rw [h1] at h
      dsimp only at h
      cases h2 : EventsController.parseDateField (getProp (ensurePlainObject payload) "datetime_end") "datetime_end" with
      | error e => rw [h2] at h; exact absurd h (by simp)
      | ok dte =>
      rw [h2] at h
      dsimp only at h
      cases h3 : EventsController.parseDateField (getProp (ensurePlainObject payload) "period") "period" with
      | error e => rw [h3] at h; exact absurd h (by simp)
      | ok per =>
      rw [h3] at h
      dsimp only at h
      cases h4 : EventsController.parseDateField (getProp (ensurePlainObject payload) "repeatUntil") "repeatUntil" with
      | error e => rw [h4] at h; exact absurd h (by simp)
      | ok ru =>
      rw [h4] at h
      dsimp only at h
      obtain ⟨e1, e2, e3, e4, l1, l2, l3⟩ := finishEventDocument_ok h
      obtain ⟨q1, hq1⟩ := parseDateField_ok_fin h1
      obtain ⟨q2, hq2⟩ := parseDateField_ok_fin h2
      obtain ⟨q3, hq3⟩ := parseDateField_ok_fin h3
      obtain ⟨q4, hq4⟩ := parseDateField_ok_fin h4
      subst hq1 hq2 hq3 hq4
      rw [e1, e2, e3, e4]
      refine ⟨⟨⟨q1, rfl⟩, ⟨q2, rfl⟩, ⟨q3, rfl⟩, ⟨q4, rfl⟩⟩, ?_, ?_, ?_⟩
      · exact le_of_lt_false_fin l1
      · exact le_of_lt_false_fin l2
      · exact le_of_lt_false_fin l3

/-- A concrete valid event payload for the C10 witness. -/
def eventPayloadOk : JSValue :=
  .obj [("ownerID", .str "aaaaaaaaaaaaaaaaaaaaaaaa"), ("visibility", .str "public"),
        ("googlePoint", .str "g"), ("description", .str "d"),
        ("datetime_start", .num (.fin 0)), ("datetime_end", .num (.fin 5)),
        ("period", .num (.fin 1)), ("repeatUntil", .num (.fin 9))]

/-- The event document `buildEventDocument` produces for `eventPayloadOk`. -/
def eventDocOk : EventsController.EventDoc :=
  { ownerID := "aaaaaaaaaaaaaaaaaaaaaaaa", visibility := "public", googlePoint := "g",
    description := "d", datetime_start := .fin 0, datetime_end := .fin 5,
    period := .fin 1, repeatUntil := .fin 9 }

/-- C10 witness: the invariants at a concrete successfully built document. -/
theorem c10_event_document_date_invariants_witness :
    ((∃ q, eventDocOk.datetime_start = JSNum.fin q) ∧
      (∃ q, eventDocOk.datetime_end = JSNum.fin q) ∧
      (∃ q, eventDocOk.period = JSNum.fin q) ∧
      (∃ q, eventDocOk.repeatUntil = JSNum.fin q)) ∧
    JSNum.le eventDocOk.datetime_start eventDocOk.datetime_end = true ∧
    JSNum.le eventDocOk.datetime_start eventDocOk.repeatUntil = true ∧
    JSNum.le eventDocOk.datetime_end eventDocOk.repeatUntil = true :=
  c10_event_document_date_invariants eventPayloadOk eventDocOk rfl

end PA05
